import Mathlib

/-!
Shallow embedding of the particle simulation in `src/main.rs` of
`patonw/nannou-bubbles`.

Floating-point (`f32`/`f64`) values are modelled as real numbers; `Duration`
values as non-negative reals measured in seconds.  Each call the code makes
to the random number generator (`rand::random_range`, gamma sampling,
`random_color`) is abstracted as an oracle value supplied in a `SpawnDraws`
record: the theorems quantify over the drawn values instead of over the RNG
state.  `Model::update`'s egui UI section (window building, sliders, the
Dump/Clear buttons) is external to the simulation; the embedded
`Model.updateSim` covers the simulation step of `Model::update`
(src/main.rs lines 287-309: the pause check, per-dot update, retain-based
cull, gamma construction and the conditional spawn).  A `none` result of
`Model.updateSim` models a panic of the Rust code (the
`Gamma::new(..).unwrap()` on line 294 panicking).
-/

/-- 2D point / vector (`nannou::glam::Vec2`), componentwise arithmetic. -/
abbrev Point : Type := ℝ × ℝ

/-- An RGBA color (`Srgba<u8>`); the channel values play no role in the
dynamics, they are carried around unchanged. -/
abbrev Rgba : Type := ℕ × ℕ × ℕ × ℕ

/-- `struct Dot` (src/main.rs lines 78-96).  `ttl` is the `Duration` field
in seconds. -/
structure Dot where
  color : Rgba
  origin : Point
  pivot : Point
  radius : ℝ
  max_radius : ℝ
  speed : ℝ
  growth_rate : ℝ
  ttl : ℝ

/-- `self.ttl.checked_sub(delta).unwrap_or(Duration::ZERO)`
(src/main.rs line 109): `Duration::checked_sub` returns `None` when the
subtrahend exceeds the value, and `unwrap_or` replaces that by zero. -/
noncomputable def checkedSubZero (a b : ℝ) : ℝ :=
  if b ≤ a then a - b else 0

/-- `Vec2::rotate` from nannou/glam: rotation of a vector by an angle in
radians, counter-clockwise. -/
noncomputable def rotateVec (v : Point) (θ : ℝ) : Point :=
  (v.1 * Real.cos θ - v.2 * Real.sin θ, v.1 * Real.sin θ + v.2 * Real.cos θ)

/-- `impl Nannou for Dot`, `fn update` (src/main.rs lines 107-119): decrement
`ttl` (saturating at zero), grow the radius by `growth_rate * delta` when it
is still below `max_radius` (no clamping in the source), and rotate `origin`
around `pivot` by `speed * delta`.  `dt` is `update.since_last` in seconds
(a `Duration`, hence non-negative in every actual call). -/
noncomputable def Dot.update (d : Dot) (dt : ℝ) : Dot :=
  { d with
    ttl := checkedSubZero d.ttl dt
    radius := if d.radius < d.max_radius then d.radius + d.growth_rate * dt else d.radius
    origin := d.pivot + rotateVec (d.origin - d.pivot) (d.speed * dt) }

/-- The retain predicate of the cull pass (src/main.rs line 292):
`d.ttl > Duration::ZERO && d.radius < d.max_radius`.  This is the liveness
predicate the spec calls `is_alive()`. -/
def Dot.isAlive (d : Dot) : Prop :=
  0 < d.ttl ∧ d.radius < d.max_radius

noncomputable instance (d : Dot) : Decidable d.isAlive :=
  inferInstanceAs (Decidable (0 < d.ttl ∧ d.radius < d.max_radius))

/-- `struct Settings` (src/main.rs lines 122-131).  `max_count` is a `u8`. -/
structure Settings where
  paused : Bool
  bg_color : ℕ × ℕ × ℕ
  max_count : ℕ
  max_speed : ℝ
  max_rate : ℝ
  scale : ℝ
  shape : ℝ

/-- One tick's worth of random draws, abstracting the RNG calls made in the
spawn expression of `Model::update` (src/main.rs lines 295-307):
`gammaSample` is the raw `radius_dist.sample(..)` value before clamping, and
the remaining fields are the values of `random_color()`, the two
`rand_point()` calls, and the `random_range` draws for speed, growth rate
and ttl. -/
structure SpawnDraws where
  gammaSample : ℝ
  color : Rgba
  origin : Point
  pivot : Point
  speed : ℝ
  growth_rate : ℝ
  ttl : ℝ

/-- `rand_distr::Gamma::new(shape, scale)` (called on src/main.rs line 294):
returns an error unless `shape > 0` and `scale > 0`. -/
noncomputable def gammaNew (shape scale : ℝ) : Option Unit :=
  if 0 < shape then (if 0 < scale then some () else none) else none

/-- `f32::clamp(lo, hi)` for `lo ≤ hi`, as used on src/main.rs line 296. -/
noncomputable def clampF (x lo hi : ℝ) : ℝ :=
  max lo (min x hi)

/-- The `Dot::builder()...build()` expression of the spawn (src/main.rs
lines 300-308): fixed initial radius 10 (the builder default on line 86),
`max_radius` the gamma sample clamped to `[0, 512]` (line 296), the rest
taken from the tick's random draws. -/
noncomputable def spawnDot (draws : SpawnDraws) : Dot :=
  { color := draws.color
    origin := draws.origin
    pivot := draws.pivot
    radius := 10
    max_radius := clampF draws.gammaSample 0 512
    speed := draws.speed
    growth_rate := draws.growth_rate
    ttl := draws.ttl }

/-- The per-dot update followed by the retain-based cull
(src/main.rs lines 291-292). -/
noncomputable def cullStep (dots : List Dot) (dt : ℝ) : List Dot :=
  (dots.map (fun d => d.update dt)).filter (fun d => decide d.isAlive)

/-- The simulation step of `Model::update` (src/main.rs lines 287-309):
if paused, return unchanged; otherwise update every dot, cull with the
liveness predicate, build the gamma distribution (`.unwrap()` panics —
modelled as `none` — when `Gamma::new` fails), and push one freshly spawned
dot if the population is below `settings.max_count`. -/
noncomputable def Model.updateSim (dots : List Dot) (s : Settings) (dt : ℝ)
    (draws : SpawnDraws) : Option (List Dot) :=
  if s.paused then some dots
  else
    match gammaNew s.shape s.scale with
    | none => none
    | some _ =>
      if (cullStep dots dt).length < s.max_count then
        some (cullStep dots dt ++ [spawnDot draws])
      else some (cullStep dots dt)

/-- The axis-limit tracker update of the Radius plot (src/main.rs lines 228
and 278): `x_limit` is a `u64`; the code computes
`x_limit_f = self.x_limit as f64 * 0.995` and then stores
`vec![x_limit_f as u64, x_max1, x_max2].max()`, where `x_max1`/`x_max2` are
the largest bucket upper bounds of the two radius histograms this frame.
The `f64 → u64` cast truncates, i.e. takes the floor of the non-negative
product.  (`unwrap_or(100)` on line 278 is dead: the vector has three
elements.) -/
def xLimitNext (prev xmax1 xmax2 : ℕ) : ℕ :=
  max (⌊(0.995 : ℚ) * (prev : ℚ)⌋₊) (max xmax1 xmax2)

/-- The update rule that claim C9 / the spec states for the axis-limit
tracker, written from the spec's words for comparison with `xLimitNext`:
`x_limit' = max(0.995 × previous_x_limit, max_bucket_upper_bound)`, with no
truncation to an integer. -/
def xLimitClaimed (prev xmax1 xmax2 : ℚ) : ℚ :=
  max (0.995 * prev) (max xmax1 xmax2)

/-! ### Concrete fixtures used by counterexamples and witnesses -/

/-- A concrete RGBA color for the fixtures. -/
def color0 : Rgba := (10, 20, 30, 200)

/-- Concrete random draws for one spawn. -/
noncomputable def draws0 : SpawnDraws :=
  { gammaSample := 50, color := color0, origin := (1, 2), pivot := (3, 4),
    speed := 1, growth_rate := 2, ttl := 5 }

/-- A concrete live dot. -/
noncomputable def dot0 : Dot :=
  { color := color0, origin := (1, 0), pivot := (0, 0), radius := 10,
    max_radius := 200, speed := 1, growth_rate := 2, ttl := 5 }

/-- A concrete dot one tick away from overshooting its target radius. -/
noncomputable def dotOvershoot : Dot :=
  { color := color0, origin := (0, 0), pivot := (0, 0), radius := 10,
    max_radius := 20, speed := 0, growth_rate := 100, ttl := 5 }

/-- A concrete paused settings value. -/
noncomputable def settingsPaused : Settings :=
  { paused := true, bg_color := (105, 105, 105), max_count := 3,
    max_speed := 1, max_rate := 100, scale := 10, shape := 10 }

/-! ### Claim theorems -/

/-- C5: when `settings.paused` is true, the simulation step returns the
population unchanged — no dot is mutated, removed or spawned. -/
theorem paused_tick_freezes_population (dots : List Dot) (s : Settings)
    (dt : ℝ) (draws : SpawnDraws) (h : s.paused = true) :
    Model.updateSim dots s dt draws = some dots := by
  simp [Model.updateSim, h]

/-- Witness for `paused_tick_freezes_population` at a concrete input. -/
theorem paused_tick_freezes_population_witness :
    settingsPaused.paused = true ∧
      Model.updateSim [dot0] settingsPaused 1 draws0 = some [dot0] :=
  ⟨rfl, paused_tick_freezes_population [dot0] settingsPaused 1 draws0 rfl⟩

/-- C7: after `Dot.update dt` with `dt ≥ 0` and a non-negative ttl (the
`Duration` field is never negative), the new ttl equals `max 0 (ttl - dt)`,
so it stays between `0` and the previous ttl. -/
theorem ttl_saturating_decay (d : Dot) (dt : ℝ) (hdt : 0 ≤ dt)
    (httl : 0 ≤ d.ttl) :
    (d.update dt).ttl = max 0 (d.ttl - dt) ∧
      0 ≤ (d.update dt).ttl ∧ (d.update dt).ttl ≤ d.ttl := by
  have heq : (d.update dt).ttl = max 0 (d.ttl - dt) := by
    simp only [Dot.update, checkedSubZero]
    rcases le_or_lt dt d.ttl with h | h
    · rw [if_pos h, max_eq_right (by linarith)]
    · rw [if_neg (not_le_of_lt h), max_eq_left (by linarith)]
  refine ⟨heq, ?_, ?_⟩
  · rw [heq]; exact le_max_left _ _
  · rw [heq]; exact max_le httl (by linarith)

/-- Witness for `ttl_saturating_decay` at a concrete input. -/
theorem ttl_saturating_decay_witness :
    (0 : ℝ) ≤ 1 ∧ (0 : ℝ) ≤ dot0.ttl ∧
      ((dot0.update 1).ttl = max 0 (dot0.ttl - 1) ∧
        0 ≤ (dot0.update 1).ttl ∧ (dot0.update 1).ttl ≤ dot0.ttl) :=
  ⟨by norm_num, by norm_num [dot0],
    ttl_saturating_decay dot0 1 (by norm_num) (by norm_num [dot0])⟩

/-- C2 counterexample: `Dot::update` does not clamp the radius.  With
radius 10, target 20, growth rate 100 and `dt = 1`, the new radius is 110:
it differs from `min max_radius (radius + growth_rate * dt) = 20` and
strictly exceeds `max_radius`. -/
theorem radius_clamp_counterexample :
    (dotOvershoot.update 1).radius = 110 ∧
      (dotOvershoot.update 1).radius ≠
        min dotOvershoot.max_radius
          (dotOvershoot.radius + dotOvershoot.growth_rate * 1) ∧
      dotOvershoot.max_radius < (dotOvershoot.update 1).radius := by
  norm_num [Dot.update, dotOvershoot]

/-- C2 amended: when `radius < max_radius` before the update, the new radius
is exactly `radius + growth_rate * dt`, with no clamp applied — so the
radius may exceed `max_radius` after an update. -/
theorem radius_growth_unclamped (d : Dot) (dt : ℝ)
    (h : d.radius < d.max_radius) :
    (d.update dt).radius = d.radius + d.growth_rate * dt := by
  simp [Dot.update, if_pos h]

/-- Witness for `radius_growth_unclamped` at a concrete input. -/
theorem radius_growth_unclamped_witness :
    dot0.radius < dot0.max_radius ∧
      (dot0.update 1).radius = dot0.radius + dot0.growth_rate * 1 :=
  ⟨by norm_num [dot0], radius_growth_unclamped dot0 1 (by norm_num [dot0])⟩

/-- Euclidean length of a 2D vector. -/
noncomputable def vecLen (v : Point) : ℝ :=
  Real.sqrt (v.1 ^ 2 + v.2 ^ 2)

/-- Rotation preserves the squared length of a 2D vector. -/
theorem rotateVec_sq_len (v : Point) (θ : ℝ) :
    (rotateVec v θ).1 ^ 2 + (rotateVec v θ).2 ^ 2 = v.1 ^ 2 + v.2 ^ 2 := by
  have h := Real.sin_sq_add_cos_sq θ
  simp only [rotateVec]
  linear_combination (v.1 ^ 2 + v.2 ^ 2) * h

/-- C6: the orbit step of `Dot::update` is a fixed-radius rotation about
`pivot`: the pivot is unchanged and the distance from `origin` to `pivot`
is preserved, for every `dt`. -/
theorem orbit_preserves_distance (d : Dot) (dt : ℝ) :
    (d.update dt).pivot = d.pivot ∧
      vecLen ((d.update dt).origin - d.pivot) =
        vecLen (d.origin - d.pivot) := by
  refine ⟨rfl, ?_⟩
  have hcancel :
      d.pivot + rotateVec (d.origin - d.pivot) (d.speed * dt) - d.pivot =
        rotateVec (d.origin - d.pivot) (d.speed * dt) := by
    abel
  simp only [Dot.update, vecLen]
  rw [hcancel, rotateVec_sq_len]

/-- Settings with a non-positive gamma shape (the spec's `shape = −1` case),
unpaused. -/
noncomputable def settingsBadGamma : Settings :=
  { paused := false, bg_color := (105, 105, 105), max_count := 3,
    max_speed := 1, max_rate := 100, scale := 10, shape := -1 }

/-- Unpaused settings with target population 3 and valid gamma
parameters. -/
noncomputable def settingsTarget3 : Settings :=
  { paused := false, bg_color := (105, 105, 105), max_count := 3,
    max_speed := 1, max_rate := 100, scale := 10, shape := 10 }

/-- A dot that is not alive although its ttl is positive and its radius
differs from `max_radius` (the radius sits strictly above the target). -/
noncomputable def dotDead : Dot :=
  { color := color0, origin := (1, 0), pivot := (0, 0), radius := 10,
    max_radius := 5, speed := 1, growth_rate := 2, ttl := 5 }

/-- C1: with `gamma_shape ≤ 0` or `gamma_scale ≤ 0`, an unpaused simulation
step panics (`Gamma::new(..).unwrap()` on src/main.rs line 294), modelled as
the `none` result — the tick does not complete, rather than skipping the
spawn and carrying on. -/
theorem gamma_nonpositive_panics (dots : List Dot) (s : Settings) (dt : ℝ)
    (draws : SpawnDraws) (hp : s.paused = false)
    (h : s.shape ≤ 0 ∨ s.scale ≤ 0) :
    Model.updateSim dots s dt draws = none := by
  have hg : gammaNew s.shape s.scale = none := by
    rcases h with h | h
    · simp [gammaNew, not_lt.mpr h]
    · simp [gammaNew, not_lt.mpr h]
  simp [Model.updateSim, hp, hg]

/-- Witness for `gamma_nonpositive_panics` at the spec's `shape = −1`. -/
theorem gamma_nonpositive_panics_witness :
    settingsBadGamma.paused = false ∧
      (settingsBadGamma.shape ≤ 0 ∨ settingsBadGamma.scale ≤ 0) ∧
      Model.updateSim [] settingsBadGamma 1 draws0 = none :=
  ⟨rfl, Or.inl (by norm_num [settingsBadGamma]),
    gamma_nonpositive_panics [] settingsBadGamma 1 draws0 rfl
      (Or.inl (by norm_num [settingsBadGamma]))⟩

/-- C3 counterexample: from the empty population, with `max_count = 3`,
valid gamma parameters and `dt = 1 > 0`, one simulation step yields
population size 1, not 3 — the spawn branch runs once per tick. -/
theorem single_tick_population_counterexample :
    settingsTarget3.max_count = 3 ∧
      (Model.updateSim [] settingsTarget3 1 draws0).map List.length =
        some 1 := by
  refine ⟨rfl, ?_⟩
  norm_num [Model.updateSim, settingsTarget3, gammaNew, cullStep]

/-- C3 amended: from the empty population, an unpaused tick with valid
gamma parameters and positive `max_count` spawns exactly one particle —
the population after the tick is the single freshly spawned dot, and it
reaches `max_count` only over several ticks. -/
theorem single_tick_spawns_one (s : Settings) (dt : ℝ) (draws : SpawnDraws)
    (hp : s.paused = false) (hsh : 0 < s.shape) (hsc : 0 < s.scale)
    (hm : 0 < s.max_count) :
    Model.updateSim [] s dt draws = some [spawnDot draws] := by
  simp [Model.updateSim, hp, gammaNew, hsh, hsc, cullStep, hm]

/-- Witness for `single_tick_spawns_one` at a concrete input. -/
theorem single_tick_spawns_one_witness :
    settingsTarget3.paused = false ∧ 0 < settingsTarget3.shape ∧
      0 < settingsTarget3.scale ∧ 0 < settingsTarget3.max_count ∧
      Model.updateSim [] settingsTarget3 1 draws0 = some [spawnDot draws0] :=
  ⟨rfl, by norm_num [settingsTarget3], by norm_num [settingsTarget3],
    by norm_num [settingsTarget3],
    single_tick_spawns_one settingsTarget3 1 draws0 rfl
      (by norm_num [settingsTarget3]) (by norm_num [settingsTarget3])
      (by norm_num [settingsTarget3])⟩

/-- C4 counterexample: `dotDead` (ttl 5, radius 10, max_radius 5) is not
alive, yet its ttl is non-zero and its radius is not equal to its
`max_radius` — so "is_alive is false exactly when ttl == 0 OR radius ==
max_radius" fails on the code's predicate. -/
theorem liveness_characterization_counterexample :
    ¬ dotDead.isAlive ∧ dotDead.ttl ≠ 0 ∧
      dotDead.radius ≠ dotDead.max_radius := by
  norm_num [Dot.isAlive, dotDead]

/-- C4 amended: the cull predicate is exactly `0 < ttl ∧ radius <
max_radius`; for a non-negative ttl it is false exactly when `ttl = 0` or
`max_radius ≤ radius`; a dot that is not alive stays not alive through the
next update (so the next unpaused cull removes it); and the cull pass keeps
exactly the updated dots that are alive (no dot is re-introduced). -/
theorem liveness_cull_characterization (d : Dot) (dt : ℝ)
    (httl : 0 ≤ d.ttl) (hdt : 0 ≤ dt) :
    (¬ d.isAlive ↔ d.ttl = 0 ∨ d.max_radius ≤ d.radius) ∧
      (¬ d.isAlive → ¬ (d.update dt).isAlive) ∧
      (∀ dots : List Dot,
        d ∈ cullStep dots dt ↔
          d ∈ dots.map (fun e => e.update dt) ∧ d.isAlive) := by
  refine ⟨?_, ?_, ?_⟩
  · simp only [Dot.isAlive, not_and_or, not_lt]
    constructor
    · rintro (h | h)
      · exact Or.inl (le_antisymm h httl)
      · exact Or.inr h
    · rintro (h | h)
      · exact Or.inl (le_of_eq h)
      · exact Or.inr h
  · intro hna
    simp only [Dot.isAlive, not_and_or, not_lt] at hna ⊢
    rcases hna with h | h
    · left
      simp only [Dot.update, checkedSubZero]
      split
      · linarith
      · exact le_refl 0
    · right
      simp only [Dot.update]
      rw [if_neg (not_lt.mpr h)]
      exact h
  · intro dots
    simp only [cullStep, List.mem_filter, decide_eq_true_eq]

/-- Witness for `liveness_cull_characterization` at a concrete input. -/
theorem liveness_cull_characterization_witness :
    0 ≤ dotDead.ttl ∧ (0 : ℝ) ≤ 1 ∧
      (¬ dotDead.isAlive ↔
        dotDead.ttl = 0 ∨ dotDead.max_radius ≤ dotDead.radius) :=
  ⟨by norm_num [dotDead], by norm_num,
    (liveness_cull_characterization dotDead 1 (by norm_num [dotDead])
      (by norm_num)).1⟩

/-- C8: for an unpaused tick that completes, the spawn step never pushes
the population past `max_count`: the resulting size is at most the larger
of the size after culling and `settings.max_count`. -/
theorem spawn_respects_max_count (dots : List Dot) (s : Settings) (dt : ℝ)
    (draws : SpawnDraws) (out : List Dot) (hp : s.paused = false)
    (h : Model.updateSim dots s dt draws = some out) :
    out.length ≤ max (cullStep dots dt).length s.max_count := by
  simp only [Model.updateSim, hp, Bool.false_eq_true, if_false] at h
  rcases hg : gammaNew s.shape s.scale with _ | u
  · rw [hg] at h
    exact absurd h (by simp)
  · rw [hg] at h
    by_cases hc : (cullStep dots dt).length < s.max_count
    · rw [if_pos hc] at h
      have hout : out = cullStep dots dt ++ [spawnDot draws] :=
        (Option.some_injective _ h).symm
      rw [hout, List.length_append, List.length_singleton]
      exact le_max_of_le_right hc
    · rw [if_neg hc] at h
      have hout : out = cullStep dots dt :=
        (Option.some_injective _ h).symm
      rw [hout]
      exact le_max_left _ _

/-- Witness for `spawn_respects_max_count` at a concrete input. -/
theorem spawn_respects_max_count_witness :
    settingsTarget3.paused = false ∧
      Model.updateSim [] settingsTarget3 1 draws0 = some [spawnDot draws0] ∧
      [spawnDot draws0].length ≤
        max (cullStep [] 1).length settingsTarget3.max_count :=
  have hupd : Model.updateSim [] settingsTarget3 1 draws0 =
      some [spawnDot draws0] := by
    norm_num [Model.updateSim, settingsTarget3, gammaNew, cullStep]
  ⟨rfl, hupd,
    spawn_respects_max_count [] settingsTarget3 1 draws0 [spawnDot draws0]
      rfl hupd⟩

/-- C9 counterexample: with previous limit 100 and no observed bucket bound
this frame, the code stores `max(⌊0.995 × 100⌋, 0) = 99`, while the claimed
update formula gives `max(0.995 × 100, 0) = 99.5` — the `as u64` cast
truncates the decayed limit. -/
theorem xlimit_formula_counterexample :
    xLimitNext 100 0 0 = 99 ∧
      ((xLimitNext 100 0 0 : ℚ) ≠ xLimitClaimed 100 0 0) := by
  have hfl : ⌊(0.995 : ℚ) * (100 : ℕ)⌋₊ = 99 := by
    rw [Nat.floor_eq_iff (by norm_num)]
    norm_num
  have hnext : xLimitNext 100 0 0 = 99 := by
    rw [xLimitNext, hfl]
    simp
  have hclaimed : xLimitClaimed 100 0 0 = 0.995 * 100 := by
    rw [xLimitClaimed, max_self, max_eq_left (by norm_num)]
  refine ⟨hnext, ?_⟩
  rw [hnext, hclaimed]
  norm_num

/-- C9 amended: the tracker stores `max(⌊0.995 × prev⌋, max(x₁, x₂))`, the
decayed previous limit being truncated to an integer by the `as u64` cast;
consequently the limit does not increase when both observed bucket bounds
are at most `0.995 × prev`, and it rises to exactly the largest observed
bound whenever that bound is at least `prev`. -/
theorem xlimit_decay_and_rise (prev x1 x2 : ℕ) :
    xLimitNext prev x1 x2 = max (⌊(0.995 : ℚ) * prev⌋₊) (max x1 x2) ∧
      ((x1 : ℚ) ≤ 0.995 * prev → (x2 : ℚ) ≤ 0.995 * prev →
        xLimitNext prev x1 x2 ≤ prev) ∧
      (prev ≤ max x1 x2 → xLimitNext prev x1 x2 = max x1 x2) := by
  have hp : (0 : ℚ) ≤ (prev : ℚ) := Nat.cast_nonneg prev
  have hdecay : (0.995 : ℚ) * prev ≤ (prev : ℚ) := by nlinarith
  have hfloor : ⌊(0.995 : ℚ) * prev⌋₊ ≤ prev := by
    calc ⌊(0.995 : ℚ) * prev⌋₊ ≤ ⌊(prev : ℚ)⌋₊ := Nat.floor_le_floor hdecay
    _ = prev := Nat.floor_natCast prev
  refine ⟨rfl, ?_, ?_⟩
  · intro h1 h2
    refine max_le hfloor (max_le ?_ ?_)
    · exact_mod_cast h1.trans hdecay
    · exact_mod_cast h2.trans hdecay
  · intro h
    exact max_eq_right (hfloor.trans h)

/-- Witness for `xlimit_decay_and_rise` at a concrete input. -/
theorem xlimit_decay_and_rise_witness :
    ((100 : ℕ) : ℚ) ≤ 0.995 * ((200 : ℕ) : ℚ) ∧
      ((0 : ℕ) : ℚ) ≤ 0.995 * ((200 : ℕ) : ℚ) ∧
      xLimitNext 200 100 0 ≤ 200 :=
  ⟨by norm_num, by norm_num,
    (xlimit_decay_and_rise 200 100 0).2.1 (by norm_num) (by norm_num)⟩

/-- Unpaused settings with target population 1 and valid gamma
parameters. -/
noncomputable def settingsTarget1 : Settings :=
  { paused := false, bg_color := (105, 105, 105), max_count := 1,
    max_speed := 1, max_rate := 100, scale := 10, shape := 10 }

/-- Random draws whose raw gamma sample, 5, lies below the fixed initial
radius 10. -/
noncomputable def drawsSmallGamma : SpawnDraws :=
  { gammaSample := 5, color := color0, origin := (1, 2), pivot := (3, 4),
    speed := 1, growth_rate := 2, ttl := 5 }

/-- C10: a spawn with valid gamma parameters can produce a dot whose clamped
`max_radius` (here 5) is strictly below the fixed initial radius 10 — no
lower bound relating `max_radius` to the initial radius is enforced: the
spawn succeeds, the new dot already fails `radius < max_radius`, and the
next cull pass removes it. -/
theorem spawn_can_be_born_dead :
    Model.updateSim [] settingsTarget1 1 drawsSmallGamma =
        some [spawnDot drawsSmallGamma] ∧
      (spawnDot drawsSmallGamma).max_radius <
        (spawnDot drawsSmallGamma).radius ∧
      ¬ (spawnDot drawsSmallGamma).isAlive ∧
      cullStep [spawnDot drawsSmallGamma] 1 = [] := by
  have hcl : clampF (5 : ℝ) 0 512 = 5 := by
    rw [clampF, min_eq_left (by norm_num), max_eq_right (by norm_num)]
  have hmr : (spawnDot drawsSmallGamma).max_radius = 5 := by
    simp only [spawnDot, drawsSmallGamma, hcl]
  have hr : (spawnDot drawsSmallGamma).radius = 10 := by
    simp only [spawnDot]
  have hur : ((spawnDot drawsSmallGamma).update 1).radius = 10 := by
    simp only [Dot.update]
    rw [hr, hmr, if_neg (by norm_num)]
  have hum : ((spawnDot drawsSmallGamma).update 1).max_radius = 5 := by
    simp only [Dot.update]
    exact hmr
  refine ⟨?_, ?_, ?_, ?_⟩
  · norm_num [Model.updateSim, settingsTarget1, gammaNew, cullStep]
  · rw [hmr, hr]; norm_num
  · rw [Dot.isAlive, hmr, hr]
    norm_num
  · simp only [cullStep, List.map_cons, List.map_nil, List.filter_cons,
      List.filter_nil]
    rw [if_neg]
    simp only [decide_eq_true_eq, Dot.isAlive, hur, hum]
    norm_num
